import Mathlib

/-
Verification of the OpenReplay MCP server's request-translation layer.

The repository contains two variants of the same server class
`OpenReplayMCP`: a full-access variant (src/index.ts, bearer-token
credentials, `/v1/projects/...` endpoints) and a constrained variant
(organization API-key credentials, `/api/v1/...` endpoints).  Both are
embedded below: loosely-typed JS values become the inductive `Value`,
JS objects become association lists, the axios client becomes an
explicit `Responder` function from outbound requests to outcomes, and
the per-call try/catch becomes `catchWrap` over an `Except` result.
-/

namespace OpenReplayMCP

/-- A JavaScript/JSON value as it flows through the server: argument
bags, request payloads and remote response bodies.  JS `undefined` is
represented one level up, by `Option Value`.  Numbers are modelled as
integers (the server only manipulates epoch-millisecond timestamps and
counts; fractional values never arise in its own logic). -/
inductive Value where
  | vNull
  | vBool (b : Bool)
  | vNum (n : Int)
  | vStr (s : String)
  | vArr (xs : List Value)
  | vObj (fs : List (String × Value))
deriving Repr

/-- JS truthiness of a defined value: `null`, `false`, `0` and `""` are
falsy; every object and array is truthy. -/
def truthy : Value → Bool
  | .vNull => false
  | .vBool b => b
  | .vNum n => n != 0
  | .vStr s => s != ""
  | .vArr _ => true
  | .vObj _ => true

/-- An argument bag: the `arguments` object of a tool call, a JS object
modelled as an association list (keys assumed unique, as produced by
JSON parsing). -/
abbrev Args := List (String × Value)

/-- JS property access `args.k`: `some v` when the property is present,
`none` for `undefined`. -/
def getArg (args : Args) (k : String) : Option Value :=
  match args with
  | [] => none
  | (k', v) :: rest => if k' = k then some v else getArg rest k

/-- The JS default idiom `x || d`: the default is taken when the
property is absent (`undefined`) or present but falsy. -/
def jsOr (o : Option Value) (d : Value) : Value :=
  match o with
  | some x => if truthy x then x else d
  | none => d

/-- Truthiness of a possibly-undefined value (`undefined` is falsy). -/
def truthyOpt : Option Value → Bool
  | none => false
  | some v => truthy v

/-- Join a list of strings with a separator. -/
def joinSep (sep : String) : List String → String
  | [] => ""
  | [s] => s
  | s :: ss => s ++ sep ++ joinSep sep ss

/-- Lowercase hexadecimal digit, for JSON control-character escapes. -/
def hexDigitChar (n : Nat) : Char :=
  if n < 10 then Char.ofNat (48 + n) else Char.ofNat (87 + n)

/-- JSON string escaping of one character, as performed by
`JSON.stringify`: quotes, backslashes, the named control escapes, and
`\u00xx` for the remaining control characters. -/
def escapeJsonChar (c : Char) : String :=
  if c = '"' then "\\\""
  else if c = '\\' then "\\\\"
  else if c = '\n' then "\\n"
  else if c = '\r' then "\\r"
  else if c = '\t' then "\\t"
  else if c = Char.ofNat 8 then "\\b"
  else if c = Char.ofNat 12 then "\\f"
  else if c.toNat < 32 then
    "\\u00" ++ String.singleton (hexDigitChar (c.toNat / 16)) ++
      String.singleton (hexDigitChar (c.toNat % 16))
  else String.singleton c

/-- A JSON string literal: quoted and escaped. -/
def quoteJson (s : String) : String :=
  "\"" ++ String.join (s.toList.map escapeJsonChar) ++ "\""

/-- Model of `JSON.stringify(v, null, 2)` at indentation context `ind`:
two-space indentation, members one per line, `: ` after keys, compact
`[]` and empty-object braces. -/
def stringifyVal (ind : String) (v : Value) : String :=
  match v with
  | .vNull => "null"
  | .vBool b => cond b "true" "false"
  | .vNum n => toString n
  | .vStr s => quoteJson s
  | .vArr [] => "[]"
  | .vArr (x :: xs) =>
      "[\n" ++
      joinSep ",\n" (((x :: xs).attach).map
        (fun y => ind ++ "  " ++ stringifyVal (ind ++ "  ") y.1)) ++
      "\n" ++ ind ++ "]"
  | .vObj [] => "\x7b\x7d"
  | .vObj (f :: fs) =>
      "\x7b\n" ++
      joinSep ",\n" (((f :: fs).attach).map
        (fun g => ind ++ "  " ++ quoteJson g.1.1 ++ ": " ++ stringifyVal (ind ++ "  ") g.1.2)) ++
      "\n" ++ ind ++ "\x7d"
termination_by sizeOf v
decreasing_by
  · simp_wf
    have := List.sizeOf_lt_of_mem y.2
    simp at this ⊢
    omega
  · simp_wf
    obtain ⟨⟨a, b⟩, hm⟩ := g
    have := List.sizeOf_lt_of_mem hm
    simp at this ⊢
    omega

/-- `JSON.stringify(v, null, 2)` at top level. -/
def jsonStringify2 (v : Value) : String := stringifyVal "" v

/-- JS string conversion of an array (`Array.prototype.toString`):
elements joined with commas, `null` rendered empty, nested arrays
flattened, objects rendered as `[object Object]`. -/
def jsArrayToString (xs : List Value) : String :=
  joinSep "," ((xs.attach).map
    (fun y =>
      match _hy : y.1 with
      | .vNull => ""
      | .vBool b => cond b "true" "false"
      | .vNum n => toString n
      | .vStr s => s
      | .vArr ys => jsArrayToString ys
      | .vObj _ => "[object Object]"))
termination_by sizeOf xs
decreasing_by
  simp_wf
  have h1 := List.sizeOf_lt_of_mem y.2
  have h2 : sizeOf ys < sizeOf y.1 := by rw [_hy]; simp
  omega

/-- JS template-literal string conversion `String(v)` of a defined
value. -/
def jsToString (v : Value) : String :=
  match v with
  | .vNull => "null"
  | .vBool b => cond b "true" "false"
  | .vNum n => toString n
  | .vStr s => s
  | .vArr xs => jsArrayToString xs
  | .vObj _ => "[object Object]"

/-- JS template-literal interpolation of a possibly-undefined value, as
in the path templates: an absent property interpolates as the string
`undefined`. -/
def templateStrOpt : Option Value → String
  | none => "undefined"
  | some v => jsToString v

/-- Civil date (year, month, day) of a day count relative to the epoch
1970-01-01, by the standard Gregorian era decomposition. -/
def civilFromDays (days : Int) : Int × Int × Int :=
  let z := days + 719468
  let era := Int.fdiv z 146097
  let doe := z - era * 146097
  let yoe := (doe - doe / 1460 + doe / 36524 - doe / 146096) / 365
  let y := yoe + era * 400
  let doy := doe - (365 * yoe + yoe / 4 - yoe / 100)
  let mp := (5 * doy + 2) / 153
  let d := doy - (153 * mp + 2) / 5 + 1
  let m := mp + (if mp < 10 then 3 else -9)
  (y + (if m ≤ 2 then 1 else 0), m, d)

/-- Day count relative to the epoch 1970-01-01 of a civil date. -/
def daysFromCivil (y m d : Int) : Int :=
  let y' := y - (if m ≤ 2 then 1 else 0)
  let era := Int.fdiv y' 400
  let yoe := y' - era * 400
  let doy := (153 * (m + (if m > 2 then -3 else 9)) + 2) / 5 + d - 1
  let doe := yoe * 365 + yoe / 4 - yoe / 100 + doy
  era * 146097 + doe - 719468

/-- Zero-pad to two digits. -/
def pad2 (n : Int) : String := (if n < 10 then "0" else "") ++ toString n

/-- Zero-pad to three digits. -/
def pad3 (n : Int) : String :=
  (if n < 10 then "00" else if n < 100 then "0" else "") ++ toString n

/-- Zero-pad to four digits. -/
def pad4 (n : Int) : String :=
  (if n < 10 then "000" else if n < 100 then "00" else if n < 1000 then "0" else "") ++
    toString n

/-- Model of `new Date(t).toISOString()` for an epoch-millisecond
timestamp: the canonical `YYYY-MM-DDTHH:mm:ss.sssZ` rendering. -/
def toISOString (t : Int) : String :=
  let days := Int.fdiv t 86400000
  let msOfDay := t - days * 86400000
  let ymd := civilFromDays days
  pad4 ymd.1 ++ "-" ++ pad2 ymd.2.1 ++ "-" ++ pad2 ymd.2.2 ++ "T" ++
    pad2 (msOfDay / 3600000) ++ ":" ++ pad2 (msOfDay / 60000 % 60) ++ ":" ++
    pad2 (msOfDay / 1000 % 60) ++ "." ++ pad3 (msOfDay % 1000) ++ "Z"

/-- Numeric value of a decimal digit character. -/
def digitVal (c : Char) : Option Int :=
  if 48 ≤ c.toNat ∧ c.toNat ≤ 57 then some (Int.ofNat (c.toNat - 48)) else none

/-- Two decimal digits. -/
def digits2 (a b : Char) : Option Int := do
  let x ← digitVal a
  let y ← digitVal b
  pure (10 * x + y)

/-- Three decimal digits. -/
def digits3 (a b c : Char) : Option Int := do
  let x ← digitVal a
  let y ← digitVal b
  let z ← digitVal c
  pure (100 * x + 10 * y + z)

/-- Four decimal digits. -/
def digits4 (a b c d : Char) : Option Int := do
  let x ← digitVal a
  let y ← digitVal b
  let z ← digitVal c
  let w ← digitVal d
  pure (1000 * x + 100 * y + 10 * z + w)

/-- Model of `new Date(s).getTime()` on a canonical ISO-8601 timestamp
string `YYYY-MM-DDTHH:mm:ss.sssZ`.  Inputs outside this canonical shape
are outside the modelled domain and map to 0 (no claim depends on
them). -/
def parseIsoMs (s : String) : Int :=
  match s.toList with
  | [y1, y2, y3, y4, '-', mo1, mo2, '-', d1, d2, 'T', h1, h2, ':', mi1, mi2, ':',
     sc1, sc2, '.', f1, f2, f3, 'Z'] =>
    match digits4 y1 y2 y3 y4, digits2 mo1 mo2, digits2 d1 d2, digits2 h1 h2,
        digits2 mi1 mi2, digits2 sc1 sc2, digits3 f1 f2 f3 with
    | some y, some mo, some d, some h, some mi, some sec, some f =>
        daysFromCivil y mo d * 86400000 + h * 3600000 + mi * 60000 + sec * 1000 + f
    | _, _, _, _, _, _, _ => 0
  | _ => 0

/-- Model of `new Date(x).getTime()` applied to a (truthy) argument
value: strings are parsed as ISO timestamps, numbers are taken as
epoch milliseconds; other inputs are outside the modelled domain. -/
def dateGetTime (o : Option Value) : Int :=
  match o with
  | some (.vStr s) => parseIsoMs s
  | some (.vNum n) => n
  | _ => 0

/-- HTTP method of an outbound call. -/
inductive HttpMethod where
  | get
  | post
deriving DecidableEq, Repr

/-- One outbound HTTP request as constructed by a tool handler: method,
interpolated path, JSON body (POST) and query parameters (GET).  An
entry whose value is `none` is a property set to `undefined` (dropped
by the HTTP client on the wire). -/
structure OutboundRequest where
  method : HttpMethod
  path : String
  body : List (String × Option Value)
  params : List (String × Option Value)
deriving Repr

/-- Outcome of the outbound call: a parsed JSON response body, or a
rejection carrying the thrown error's `message` property (`none` when
the error has no message). -/
inductive Outcome where
  | success (body : Value)
  | failure (msg : Option String)

/-- The HTTP client, abstracted: what the remote returns for a given
request. -/
abbrev Responder := OutboundRequest → Outcome

/-- One element of a ToolResult's content sequence. -/
structure ContentItem where
  type : String
  text : String
deriving DecidableEq, Repr

/-- The uniform response envelope returned for every tool call. -/
structure ToolResult where
  content : List ContentItem
deriving DecidableEq, Repr

/-- A single-element text envelope. -/
def mkTextResult (s : String) : ToolResult :=
  { content := [{ type := "text", text := s }] }

/-- What the CallTool request handler produces: a ToolResult, or the
method-not-found protocol fault raised for an undeclared tool name. -/
inductive HandleOut where
  | ok (r : ToolResult)
  | methodNotFound (msg : String)
deriving DecidableEq, Repr

/-- Result of one tool method body: the outbound requests it issued,
and either a returned ToolResult or a thrown (non-protocol) error's
message. -/
abbrev ToolCallResult := List OutboundRequest × Except (Option String) ToolResult

/-- The error text built by the catch block:
`error.message || "Unknown error occurred"`. -/
def errMsgText : Option String → String
  | some s => if s = "" then "Unknown error occurred" else s
  | none => "Unknown error occurred"

/-- The try/catch surrounding the dispatch switch: a thrown
(non-protocol) error is converted into a textual ToolResult. -/
def catchWrap (p : ToolCallResult) : List OutboundRequest × HandleOut :=
  (p.1,
    match p.2 with
    | .ok r => HandleOut.ok r
    | .error m => HandleOut.ok (mkTextResult ("Error: " ++ errMsgText m)))

/-- The pattern shared by every tool method that calls the remote API:
issue exactly one request, await it, and on success serialize the raw
response body with `JSON.stringify(data, null, 2)` into a
single-element text envelope; a rejection propagates as a thrown
error. -/
def callAndWrap (req : OutboundRequest) (respond : Responder) : ToolCallResult :=
  ([req],
    match respond req with
    | .success b => Except.ok (mkTextResult (jsonStringify2 b))
    | .failure m => Except.error m)

/-- Process configuration, read once at startup: the project identifier
of the full-access variant (`OPENREPLAY_PROJECT_ID`) and the project
key of the organization API-key variant (`OPENREPLAY_PROJECT_KEY`). -/
structure Config where
  projectId : String
  projectKey : String

/-- The two authentication-mode variants of the server found in the
repository. -/
inductive AuthMode where
  | full
  | apiKey
deriving DecidableEq, Repr

namespace Full

/-- Full-access `searchSessions`: POST to the sessions/search endpoint,
filling `||`-defaults for every optional field. -/
def searchSessions (cfg : Config) (now : Int) (args : Args) (respond : Responder) :
    ToolCallResult :=
  callAndWrap
    { method := HttpMethod.post
      path := "/v1/projects/" ++ cfg.projectId ++ "/sessions/search"
      body := [
        ("startDate", some (jsOr (getArg args "startDate")
          (Value.vStr (toISOString (now - 7 * 24 * 60 * 60 * 1000))))),
        ("endDate", some (jsOr (getArg args "endDate") (Value.vStr (toISOString now)))),
        ("filters", some (jsOr (getArg args "filters") (Value.vArr []))),
        ("limit", some (jsOr (getArg args "limit") (Value.vNum 50))),
        ("offset", some (jsOr (getArg args "offset") (Value.vNum 0))),
        ("sort", some (jsOr (getArg args "sort")
          (Value.vObj [("field", Value.vStr "startedAt"), ("order", Value.vStr "desc")])))]
      params := [] }
    respond

/-- Full-access `getSessionDetails`: GET of one session record. -/
def getSessionDetails (cfg : Config) (args : Args) (respond : Responder) :
    ToolCallResult :=
  callAndWrap
    { method := HttpMethod.get
      path := "/v1/projects/" ++ cfg.projectId ++ "/sessions/" ++
        templateStrOpt (getArg args "sessionId")
      body := []
      params := [] }
    respond

/-- Full-access `getSessionEvents`: GET of a session's events with the
optional filters forwarded as query parameters. -/
def getSessionEvents (cfg : Config) (args : Args) (respond : Responder) :
    ToolCallResult :=
  callAndWrap
    { method := HttpMethod.get
      path := "/v1/projects/" ++ cfg.projectId ++ "/sessions/" ++
        templateStrOpt (getArg args "sessionId") ++ "/events"
      body := []
      params := [
        ("eventTypes", getArg args "eventTypes"),
        ("startTime", getArg args "startTime"),
        ("endTime", getArg args "endTime")] }
    respond

/-- Full-access `aggregateSessions`: POST to the sessions/aggregate
endpoint; `metrics` is forwarded as given (no default). -/
def aggregateSessions (cfg : Config) (now : Int) (args : Args) (respond : Responder) :
    ToolCallResult :=
  callAndWrap
    { method := HttpMethod.post
      path := "/v1/projects/" ++ cfg.projectId ++ "/sessions/aggregate"
      body := [
        ("startDate", some (jsOr (getArg args "startDate")
          (Value.vStr (toISOString (now - 7 * 24 * 60 * 60 * 1000))))),
        ("endDate", some (jsOr (getArg args "endDate") (Value.vStr (toISOString now)))),
        ("metrics", getArg args "metrics"),
        ("groupBy", some (jsOr (getArg args "groupBy") (Value.vArr []))),
        ("filters", some (jsOr (getArg args "filters") (Value.vArr [])))]
      params := [] }
    respond

/-- Full-access `getUserJourney`: GET of a user's journey; the date
range and `includeEvents` are forwarded exactly as given (absent ones
stay `undefined` — no default is filled here). -/
def getUserJourney (cfg : Config) (args : Args) (respond : Responder) :
    ToolCallResult :=
  callAndWrap
    { method := HttpMethod.get
      path := "/v1/projects/" ++ cfg.projectId ++ "/users/" ++
        templateStrOpt (getArg args "userId") ++ "/journey"
      body := []
      params := [
        ("startDate", getArg args "startDate"),
        ("endDate", getArg args "endDate"),
        ("includeEvents", getArg args "includeEvents")] }
    respond

/-- Full-access `getErrorsIssues`: POST to the errors/search endpoint
with `||`-defaults. -/
def getErrorsIssues (cfg : Config) (now : Int) (args : Args) (respond : Responder) :
    ToolCallResult :=
  callAndWrap
    { method := HttpMethod.post
      path := "/v1/projects/" ++ cfg.projectId ++ "/errors/search"
      body := [
        ("startDate", some (jsOr (getArg args "startDate")
          (Value.vStr (toISOString (now - 7 * 24 * 60 * 60 * 1000))))),
        ("endDate", some (jsOr (getArg args "endDate") (Value.vStr (toISOString now)))),
        ("errorTypes", some (jsOr (getArg args "errorTypes") (Value.vArr []))),
        ("minOccurrences", some (jsOr (getArg args "minOccurrences") (Value.vNum 1))),
        ("groupBy", some (jsOr (getArg args "groupBy") (Value.vStr "message")))]
      params := [] }
    respond

/-- Full-access `getFunnelAnalysis`: POST to the funnels/analyze
endpoint; `steps` is forwarded as given. -/
def getFunnelAnalysis (cfg : Config) (now : Int) (args : Args) (respond : Responder) :
    ToolCallResult :=
  callAndWrap
    { method := HttpMethod.post
      path := "/v1/projects/" ++ cfg.projectId ++ "/funnels/analyze"
      body := [
        ("steps", getArg args "steps"),
        ("startDate", some (jsOr (getArg args "startDate")
          (Value.vStr (toISOString (now - 7 * 24 * 60 * 60 * 1000))))),
        ("endDate", some (jsOr (getArg args "endDate") (Value.vStr (toISOString now)))),
        ("filters", some (jsOr (getArg args "filters") (Value.vArr [])))]
      params := [] }
    respond

/-- Full-access `getPerformanceMetrics`: POST to the
performance/metrics endpoint with `||`-defaults. -/
def getPerformanceMetrics (cfg : Config) (now : Int) (args : Args) (respond : Responder) :
    ToolCallResult :=
  callAndWrap
    { method := HttpMethod.post
      path := "/v1/projects/" ++ cfg.projectId ++ "/performance/metrics"
      body := [
        ("startDate", some (jsOr (getArg args "startDate")
          (Value.vStr (toISOString (now - 7 * 24 * 60 * 60 * 1000))))),
        ("endDate", some (jsOr (getArg args "endDate") (Value.vStr (toISOString now)))),
        ("metrics", getArg args "metrics"),
        ("groupBy", some (jsOr (getArg args "groupBy") (Value.vArr []))),
        ("percentiles", some (jsOr (getArg args "percentiles")
          (Value.vArr [Value.vNum 50, Value.vNum 75, Value.vNum 90, Value.vNum 95,
            Value.vNum 99])))]
      params := [] }
    respond

/-- Full-access `executeCustomQuery`: POST to the query endpoint;
`query` is forwarded as given, `parameters` defaults to the empty
object. -/
def executeCustomQuery (cfg : Config) (args : Args) (respond : Responder) :
    ToolCallResult :=
  callAndWrap
    { method := HttpMethod.post
      path := "/v1/projects/" ++ cfg.projectId ++ "/query"
      body := [
        ("query", getArg args "query"),
        ("parameters", some (jsOr (getArg args "parameters") (Value.vObj [])))]
      params := [] }
    respond

end Full

namespace ApiKey

/-- API-key `listProjects`: GET of the organization's projects. -/
def listProjects (respond : Responder) : ToolCallResult :=
  callAndWrap
    { method := HttpMethod.get
      path := "/api/v1/projects"
      body := []
      params := [] }
    respond

/-- API-key `getUserSessions`: GET of one user's sessions; present
dates are converted to epoch milliseconds, absent ones stay
`undefined`. -/
def getUserSessions (cfg : Config) (args : Args) (respond : Responder) :
    ToolCallResult :=
  callAndWrap
    { method := HttpMethod.get
      path := "/api/v1/" ++ cfg.projectKey ++ "/users/" ++
        templateStrOpt (getArg args "userId") ++ "/sessions"
      body := []
      params := [
        ("start_date", if truthyOpt (getArg args "startDate")
          then some (Value.vNum (dateGetTime (getArg args "startDate"))) else none),
        ("end_date", if truthyOpt (getArg args "endDate")
          then some (Value.vNum (dateGetTime (getArg args "endDate"))) else none)] }
    respond

/-- API-key `searchSessions`: without a (truthy) `userId` the method
returns an explanatory text and performs no call; with one it GETs the
user-sessions endpoint, defaulting the range to the last 7 days in
epoch milliseconds. -/
def searchSessions (cfg : Config) (now : Int) (args : Args) (respond : Responder) :
    ToolCallResult :=
  if truthyOpt (getArg args "userId") = false then
    ([], Except.ok (mkTextResult "Session search requires a userId when using API key authentication. For full search capabilities, JWT authentication is needed."))
  else
    callAndWrap
      { method := HttpMethod.get
        path := "/api/v1/" ++ cfg.projectKey ++ "/users/" ++
          templateStrOpt (getArg args "userId") ++ "/sessions"
        body := []
        params := [
          ("start_date", some (Value.vNum (if truthyOpt (getArg args "startDate")
            then dateGetTime (getArg args "startDate")
            else now - 7 * 24 * 60 * 60 * 1000))),
          ("end_date", some (Value.vNum (if truthyOpt (getArg args "endDate")
            then dateGetTime (getArg args "endDate") else now)))] }
      respond

/-- API-key `getSessionDetails`: unavailable under these credentials;
fixed explanatory text, no call. -/
def getSessionDetails : ToolCallResult :=
  ([], Except.ok (mkTextResult "Session replay details are not available via API key authentication. Use get_session_events instead or use JWT authentication for full access."))

/-- API-key `getSessionEvents`: GET of a session's events. -/
def getSessionEvents (cfg : Config) (args : Args) (respond : Responder) :
    ToolCallResult :=
  callAndWrap
    { method := HttpMethod.get
      path := "/api/v1/" ++ cfg.projectKey ++ "/sessions/" ++
        templateStrOpt (getArg args "sessionId") ++ "/events"
      body := []
      params := [] }
    respond

/-- API-key `aggregateSessions`: unavailable under these credentials;
fixed explanatory text, no call. -/
def aggregateSessions : ToolCallResult :=
  ([], Except.ok (mkTextResult "Session aggregation is not available via API key authentication. You can retrieve individual user sessions instead."))

/-- API-key `getUserJourney`: GET of the user-sessions endpoint,
defaulting the range to the last 30 days in epoch milliseconds. -/
def getUserJourney (cfg : Config) (now : Int) (args : Args) (respond : Responder) :
    ToolCallResult :=
  callAndWrap
    { method := HttpMethod.get
      path := "/api/v1/" ++ cfg.projectKey ++ "/users/" ++
        templateStrOpt (getArg args "userId") ++ "/sessions"
      body := []
      params := [
        ("start_date", some (Value.vNum (if truthyOpt (getArg args "startDate")
          then dateGetTime (getArg args "startDate")
          else now - 30 * 24 * 60 * 60 * 1000))),
        ("end_date", some (Value.vNum (if truthyOpt (getArg args "endDate")
          then dateGetTime (getArg args "endDate") else now)))] }
    respond

/-- API-key `getErrorsIssues`: unavailable; fixed text, no call. -/
def getErrorsIssues : ToolCallResult :=
  ([], Except.ok (mkTextResult "Error analysis is not available via API key authentication. JWT authentication is required for this feature."))

/-- API-key `getFunnelAnalysis`: unavailable; fixed text, no call. -/
def getFunnelAnalysis : ToolCallResult :=
  ([], Except.ok (mkTextResult "Funnel analysis is not available via API key authentication. JWT authentication is required for this feature."))

/-- API-key `getPerformanceMetrics`: unavailable; fixed text, no
call. -/
def getPerformanceMetrics : ToolCallResult :=
  ([], Except.ok (mkTextResult "Performance metrics are not available via API key authentication. JWT authentication is required for this feature."))

/-- API-key `executeCustomQuery`: unavailable; fixed text, no call. -/
def executeCustomQuery : ToolCallResult :=
  ([], Except.ok (mkTextResult "Custom queries are not directly supported. Please use the specific search and filter tools instead."))

end ApiKey

/-- The CallTool dispatch switch of the full-access variant, wrapped in
its try/catch; the default case raises the method-not-found protocol
fault. -/
def handleFull (cfg : Config) (now : Int) (name : String) (args : Args)
    (respond : Responder) : List OutboundRequest × HandleOut :=
  match name with
  | "search_sessions" => catchWrap (Full.searchSessions cfg now args respond)
  | "get_session_details" => catchWrap (Full.getSessionDetails cfg args respond)
  | "get_session_events" => catchWrap (Full.getSessionEvents cfg args respond)
  | "aggregate_sessions" => catchWrap (Full.aggregateSessions cfg now args respond)
  | "get_user_journey" => catchWrap (Full.getUserJourney cfg args respond)
  | "get_errors_issues" => catchWrap (Full.getErrorsIssues cfg now args respond)
  | "get_funnel_analysis" => catchWrap (Full.getFunnelAnalysis cfg now args respond)
  | "get_performance_metrics" => catchWrap (Full.getPerformanceMetrics cfg now args respond)
  | "execute_custom_query" => catchWrap (Full.executeCustomQuery cfg args respond)
  | _ => ([], HandleOut.methodNotFound ("Unknown tool: " ++ name))

/-- The CallTool dispatch switch of the organization API-key variant,
wrapped in its try/catch. -/
def handleApiKey (cfg : Config) (now : Int) (name : String) (args : Args)
    (respond : Responder) : List OutboundRequest × HandleOut :=
  match name with
  | "list_projects" => catchWrap (ApiKey.listProjects respond)
  | "get_user_sessions" => catchWrap (ApiKey.getUserSessions cfg args respond)
  | "search_sessions" => catchWrap (ApiKey.searchSessions cfg now args respond)
  | "get_session_details" => catchWrap ApiKey.getSessionDetails
  | "get_session_events" => catchWrap (ApiKey.getSessionEvents cfg args respond)
  | "aggregate_sessions" => catchWrap ApiKey.aggregateSessions
  | "get_user_journey" => catchWrap (ApiKey.getUserJourney cfg now args respond)
  | "get_errors_issues" => catchWrap ApiKey.getErrorsIssues
  | "get_funnel_analysis" => catchWrap ApiKey.getFunnelAnalysis
  | "get_performance_metrics" => catchWrap ApiKey.getPerformanceMetrics
  | "execute_custom_query" => catchWrap ApiKey.executeCustomQuery
  | _ => ([], HandleOut.methodNotFound ("Unknown tool: " ++ name))

/-- The Dispatcher: `handle(toolName, rawArguments)` of the
configuration-selected variant, instrumented with the list of outbound
requests the call issued.  `now` is the wall-clock time (epoch ms) at
invocation. -/
def handle : AuthMode → Config → Int → String → Args → Responder →
    List OutboundRequest × HandleOut
  | AuthMode.full => handleFull
  | AuthMode.apiKey => handleApiKey

/-- The tool names declared by the ListTools registry of each variant,
in registry order. -/
def declaredToolNames : AuthMode → List String
  | AuthMode.full =>
      ["search_sessions", "get_session_details", "get_session_events",
       "aggregate_sessions", "get_user_journey", "get_errors_issues",
       "get_funnel_analysis", "get_performance_metrics", "execute_custom_query"]
  | AuthMode.apiKey =>
      ["list_projects", "get_user_sessions", "search_sessions",
       "get_session_details", "get_session_events", "aggregate_sessions",
       "get_user_journey", "get_errors_issues", "get_funnel_analysis",
       "get_performance_metrics", "execute_custom_query"]

/-- The payload keys whose default values are derived from the call's
wall-clock time. -/
def timeKeys : List String := ["startDate", "endDate", "start_date", "end_date"]

/-- The shape of a request with the time-derived payload fields
removed. -/
def stripTimeFields (r : OutboundRequest) : OutboundRequest :=
  { r with
    body := r.body.filter (fun kv => !(timeKeys.contains kv.1))
    params := r.params.filter (fun kv => !(timeKeys.contains kv.1)) }

/-- First-match lookup in a request payload. -/
def lookupField (fs : List (String × Option Value)) (k : String) :
    Option (Option Value) :=
  match fs with
  | [] => none
  | (k', v) :: rest => if k' = k then some v else lookupField rest k

/-- A concrete configuration, for witnesses. -/
def cfgEx : Config := { projectId := "demo-project", projectKey := "demo-key" }

/-- A responder that always succeeds with `null`, for witnesses. -/
def respondOk : Responder := fun _ => Outcome.success Value.vNull

theorem catchWrap_fst (p : ToolCallResult) : (catchWrap p).1 = p.1 := rfl

theorem catchWrap_snd_ok (p : ToolCallResult) :
    ∃ r, (catchWrap p).2 = HandleOut.ok r := by
  rcases p with ⟨tr, res⟩
  cases res with
  | ok r => exact ⟨r, rfl⟩
  | error m => exact ⟨_, rfl⟩

theorem callAndWrap_fst (req : OutboundRequest) (respond : Responder) :
    (callAndWrap req respond).1 = [req] := rfl

theorem catchWrap_callAndWrap_failure (req : OutboundRequest) (m : Option String) :
    catchWrap (callAndWrap req (fun _ => Outcome.failure m))
      = ([req], HandleOut.ok (mkTextResult ("Error: " ++ errMsgText m))) := rfl

theorem callAndWrap_ok_shape (req : OutboundRequest) (respond : Responder)
    (r : ToolResult) (h : (callAndWrap req respond).2 = Except.ok r) :
    ∃ s, r = mkTextResult s := by
  cases hoc : respond req with
  | success b =>
      have he : (callAndWrap req respond).2 = Except.ok (mkTextResult (jsonStringify2 b)) := by
        unfold callAndWrap
        rw [hoc]
      rw [he] at h
      injection h with h'
      exact ⟨_, h'.symm⟩
  | failure m =>
      have he : (callAndWrap req respond).2 = Except.error m := by
        unfold callAndWrap
        rw [hoc]
      rw [he] at h
      exact Except.noConfusion h

theorem catchWrap_ok_shape (p : ToolCallResult)
    (hp : ∀ r, p.2 = Except.ok r → ∃ s, r = mkTextResult s)
    (r : ToolResult) (h : (catchWrap p).2 = HandleOut.ok r) :
    ∃ s, r = mkTextResult s := by
  rcases p with ⟨tr, res⟩
  cases res with
  | ok r' =>
      have hr : r' = r := by injection h
      obtain ⟨s, hs⟩ := hp r' rfl
      exact ⟨s, by rw [← hr]; exact hs⟩
  | error m =>
      have hr : mkTextResult ("Error: " ++ errMsgText m) = r := by injection h
      exact ⟨_, hr.symm⟩

theorem handle_declared_ok (mode : AuthMode) (cfg : Config) (now : Int)
    (name : String) (args : Args) (respond : Responder)
    (hname : name ∈ declaredToolNames mode) :
    ∃ r, (handle mode cfg now name args respond).2 = HandleOut.ok r := by
  cases mode with
  | full =>
      fin_cases hname <;> simp only [handle, handleFull] <;> exact catchWrap_snd_ok _
  | apiKey =>
      fin_cases hname <;> simp only [handle, handleApiKey] <;> exact catchWrap_snd_ok _

/-- Claim C1: for every tool name declared in the registry,
`handle(toolName, rawArguments)` returns a ToolResult and never throws,
for every argument bag and every outcome of the outbound call; for a
name not declared in the registry it raises the method-not-found
protocol fault, the only error that leaves the Dispatcher. -/
theorem c1_dispatch_total_and_unknown_tool_fault (mode : AuthMode) (cfg : Config)
    (now : Int) (name : String) (args : Args) (respond : Responder) :
    (name ∈ declaredToolNames mode →
      ∃ r, (handle mode cfg now name args respond).2 = HandleOut.ok r) ∧
    (name ∉ declaredToolNames mode →
      (handle mode cfg now name args respond).2
        = HandleOut.methodNotFound ("Unknown tool: " ++ name)) := by
  constructor
  · exact handle_declared_ok mode cfg now name args respond
  · intro h
    cases mode with
    | full =>
        simp only [handle]
        unfold handleFull
        split <;> first
          | rfl
          | exact absurd (by decide) h
    | apiKey =>
        simp only [handle]
        unfold handleApiKey
        split <;> first
          | rfl
          | exact absurd (by decide) h

/-- Witness for C1: under the full-access mode the declared tool
`search_sessions` yields a ToolResult, and the undeclared name
`nonexistent_tool` yields the method-not-found fault. -/
theorem c1_dispatch_total_and_unknown_tool_fault_witness :
    (∃ r, (handle AuthMode.full cfgEx 0 "search_sessions" [] respondOk).2
        = HandleOut.ok r) ∧
    (handle AuthMode.full cfgEx 0 "nonexistent_tool" [] respondOk).2
      = HandleOut.methodNotFound ("Unknown tool: " ++ "nonexistent_tool") :=
  ⟨(c1_dispatch_total_and_unknown_tool_fault AuthMode.full cfgEx 0 "search_sessions"
      [] respondOk).1 (by decide),
   (c1_dispatch_total_and_unknown_tool_fault AuthMode.full cfgEx 0 "nonexistent_tool"
      [] respondOk).2 (by decide)⟩

/-- Claim C2: in the full-access mode, `search_sessions` with an empty
argument bag issues exactly one OutboundRequest, whose body carries
startDate = ISO(now − 7 days), endDate = ISO(now) — a range spanning
exactly 7 days ending at call time — limit 50, offset 0 and sort
startedAt/desc. -/
theorem c2_search_sessions_default_request (cfg : Config) (now : Int)
    (respond : Responder) :
    (handle AuthMode.full cfg now "search_sessions" [] respond).1 =
      [{ method := HttpMethod.post
         path := "/v1/projects/" ++ cfg.projectId ++ "/sessions/search"
         body := [
           ("startDate", some (Value.vStr (toISOString (now - 7 * 24 * 60 * 60 * 1000)))),
           ("endDate", some (Value.vStr (toISOString now))),
           ("filters", some (Value.vArr [])),
           ("limit", some (Value.vNum 50)),
           ("offset", some (Value.vNum 0)),
           ("sort", some (Value.vObj [("field", Value.vStr "startedAt"),
             ("order", Value.vStr "desc")]))]
         params := [] }] := rfl

theorem handle_failure_shape (mode : AuthMode) (cfg : Config) (now : Int)
    (name : String) (args : Args) (m : Option String) :
    (handle mode cfg now name args (fun _ => Outcome.failure m)).1 = [] ∨
    (handle mode cfg now name args (fun _ => Outcome.failure m)).2
      = HandleOut.ok (mkTextResult ("Error: " ++ errMsgText m)) := by
  cases mode with
  | full =>
      simp only [handle]
      unfold handleFull
      split <;> first | exact Or.inr rfl | exact Or.inl rfl
  | apiKey =>
      simp only [handle]
      unfold handleApiKey
      split <;>
        first
          | exact Or.inr rfl
          | exact Or.inl rfl
          | (unfold ApiKey.searchSessions
             split <;> first | exact Or.inl rfl | exact Or.inr rfl)

/-- Claim C3: under the organization API-key mode, `aggregate_sessions`
with any argument bag returns its fixed explanatory unsupported text
and issues no outbound request, and the same holds for
`get_errors_issues`, `get_funnel_analysis`, `get_performance_metrics`,
`execute_custom_query`, `get_session_details`, and `search_sessions`
without a userId. -/
theorem c3_api_key_unsupported_tools (cfg : Config) (now : Int) (args : Args)
    (respond : Responder) :
    handle AuthMode.apiKey cfg now "aggregate_sessions" args respond
      = ([], HandleOut.ok (mkTextResult "Session aggregation is not available via API key authentication. You can retrieve individual user sessions instead.")) ∧
    handle AuthMode.apiKey cfg now "get_errors_issues" args respond
      = ([], HandleOut.ok (mkTextResult "Error analysis is not available via API key authentication. JWT authentication is required for this feature.")) ∧
    handle AuthMode.apiKey cfg now "get_funnel_analysis" args respond
      = ([], HandleOut.ok (mkTextResult "Funnel analysis is not available via API key authentication. JWT authentication is required for this feature.")) ∧
    handle AuthMode.apiKey cfg now "get_performance_metrics" args respond
      = ([], HandleOut.ok (mkTextResult "Performance metrics are not available via API key authentication. JWT authentication is required for this feature.")) ∧
    handle AuthMode.apiKey cfg now "execute_custom_query" args respond
      = ([], HandleOut.ok (mkTextResult "Custom queries are not directly supported. Please use the specific search and filter tools instead.")) ∧
    handle AuthMode.apiKey cfg now "get_session_details" args respond
      = ([], HandleOut.ok (mkTextResult "Session replay details are not available via API key authentication. Use get_session_events instead or use JWT authentication for full access.")) ∧
    (getArg args "userId" = none →
      handle AuthMode.apiKey cfg now "search_sessions" args respond
        = ([], HandleOut.ok (mkTextResult "Session search requires a userId when using API key authentication. For full search capabilities, JWT authentication is needed."))) := by
  refine ⟨rfl, rfl, rfl, rfl, rfl, rfl, ?_⟩
  intro h
  simp only [handle, handleApiKey, ApiKey.searchSessions, h, truthyOpt]
  rfl

/-- Witness for C3: with an empty argument bag (hence no userId),
`search_sessions` under the API-key mode returns the fixed text and
issues no request. -/
theorem c3_api_key_unsupported_tools_witness :
    handle AuthMode.apiKey cfgEx 0 "search_sessions" [] respondOk
      = ([], HandleOut.ok (mkTextResult "Session search requires a userId when using API key authentication. For full search capabilities, JWT authentication is needed.")) :=
  (c3_api_key_unsupported_tools cfgEx 0 [] respondOk).2.2.2.2.2.2 rfl

/-- Claim C4: in the full-access mode, for every sessionId and every
successful remote body, `get_session_details` returns a single-text
ToolResult whose text is exactly the body serialized by
`JSON.stringify(body, null, 2)` — the payload passes through with no
reshaping, filtering or validation. -/
theorem c4_get_session_details_passthrough (cfg : Config) (now : Int)
    (sid : String) (b : Value) :
    handle AuthMode.full cfg now "get_session_details"
        [("sessionId", Value.vStr sid)] (fun _ => Outcome.success b)
      = ([{ method := HttpMethod.get
            path := "/v1/projects/" ++ cfg.projectId ++ "/sessions/" ++ sid
            body := []
            params := [] }],
         HandleOut.ok { content := [{ type := "text", text := jsonStringify2 b }] }) :=
  rfl

/-- Claim C5: for every declared tool, when the outbound call rejects
with a nonempty message `m` the call does not throw and yields a
ToolResult whose text is `"Error: " ++ m` (so it contains `m`); with an
absent or empty message, the text reports an unknown error.  The trace
hypothesis restricts the statement to invocations that actually issued
the outbound call. -/
theorem c5_rejection_becomes_error_text (mode : AuthMode) (cfg : Config)
    (now : Int) (name : String) (args : Args) (m : String)
    (hname : name ∈ declaredToolNames mode) (hm : m ≠ "") :
    (∃ r, (handle mode cfg now name args (fun _ => Outcome.failure (some m))).2
        = HandleOut.ok r) ∧
    ((handle mode cfg now name args (fun _ => Outcome.failure (some m))).1 ≠ [] →
      (handle mode cfg now name args (fun _ => Outcome.failure (some m))).2
        = HandleOut.ok (mkTextResult ("Error: " ++ m))) ∧
    ((handle mode cfg now name args (fun _ => Outcome.failure none)).1 ≠ [] →
      (handle mode cfg now name args (fun _ => Outcome.failure none)).2
        = HandleOut.ok (mkTextResult ("Error: " ++ "Unknown error occurred"))) ∧
    ((handle mode cfg now name args (fun _ => Outcome.failure (some ""))).1 ≠ [] →
      (handle mode cfg now name args (fun _ => Outcome.failure (some ""))).2
        = HandleOut.ok (mkTextResult ("Error: " ++ "Unknown error occurred"))) := by
  refine ⟨handle_declared_ok mode cfg now name args _ hname, ?_, ?_, ?_⟩
  · intro htr
    rcases handle_failure_shape mode cfg now name args (some m) with h | h
    · exact absurd h htr
    · rw [h]
      simp only [errMsgText]
      rw [if_neg hm]
  · intro htr
    rcases handle_failure_shape mode cfg now name args none with h | h
    · exact absurd h htr
    · exact h
  · intro htr
    rcases handle_failure_shape mode cfg now name args (some "") with h | h
    · exact absurd h htr
    · exact h

/-- Witness for C5: the spec's example — a rejection with message
`ECONNRESET` on a full-access `search_sessions` call becomes the text
`Error: ECONNRESET`. -/
theorem c5_rejection_becomes_error_text_witness :
    (handle AuthMode.full cfgEx 0 "search_sessions" []
        (fun _ => Outcome.failure (some "ECONNRESET"))).2
      = HandleOut.ok (mkTextResult ("Error: " ++ "ECONNRESET")) :=
  (c5_rejection_becomes_error_text AuthMode.full cfgEx 0 "search_sessions" []
      "ECONNRESET" (by decide) (by decide)).2.1 (fun h => List.noConfusion h)

/-- Counterexample to C6 as stated: in the full-access mode,
`get_user_journey` with absent dates applies no default date range at
all — the request forwards startDate and endDate as `undefined`
(omitted), so no 7-day (nor 30-day) window ending at call time is
filled in, contradicting the claim that a default window is applied in
each mode. -/
theorem c6_counterexample :
    (handle AuthMode.full cfgEx 1700000000000 "get_user_journey" [] respondOk).1
      = [{ method := HttpMethod.get
           path := "/v1/projects/" ++ cfgEx.projectId ++ "/users/" ++
             "undefined" ++ "/journey"
           body := []
           params := [("startDate", none), ("endDate", none),
             ("includeEvents", none)] }] ∧
    (none : Option Value) ≠
      some (Value.vStr (toISOString (1700000000000 - 7 * 24 * 60 * 60 * 1000))) :=
  ⟨rfl, fun h => Option.noConfusion h⟩

/-- Claim C6 (amended): for `get_user_journey` with startDate and
endDate absent from the argument bag, the organization API-key mode
fills a default range of epoch milliseconds spanning exactly 30 days
and ending at call time, while the full-access mode fills no default at
all and forwards the absent parameters unchanged (as `undefined`). -/
theorem c6_user_journey_default_range (cfg : Config) (now : Int) (args : Args)
    (respond : Responder)
    (hs : getArg args "startDate" = none) (he : getArg args "endDate" = none) :
    (handle AuthMode.apiKey cfg now "get_user_journey" args respond).1
      = [{ method := HttpMethod.get
           path := "/api/v1/" ++ cfg.projectKey ++ "/users/" ++
             templateStrOpt (getArg args "userId") ++ "/sessions"
           body := []
           params := [
             ("start_date", some (Value.vNum (now - 30 * 24 * 60 * 60 * 1000))),
             ("end_date", some (Value.vNum now))] }] ∧
    (handle AuthMode.full cfg now "get_user_journey" args respond).1
      = [{ method := HttpMethod.get
           path := "/v1/projects/" ++ cfg.projectId ++ "/users/" ++
             templateStrOpt (getArg args "userId") ++ "/journey"
           body := []
           params := [("startDate", none), ("endDate", none),
             ("includeEvents", getArg args "includeEvents")] }] := by
  constructor
  · simp [handle, handleApiKey, ApiKey.getUserJourney, hs, he, truthyOpt,
      callAndWrap, catchWrap]
  · simp [handle, handleFull, Full.getUserJourney, hs, he, callAndWrap, catchWrap]

/-- Witness for C6 (amended): with an empty argument bag at call time
0, the API-key variant requests the range from −30 days to 0. -/
theorem c6_user_journey_default_range_witness :
    (handle AuthMode.apiKey cfgEx 0 "get_user_journey" [] respondOk).1
      = [{ method := HttpMethod.get
           path := "/api/v1/" ++ cfgEx.projectKey ++ "/users/" ++
             templateStrOpt (getArg [] "userId") ++ "/sessions"
           body := []
           params := [
             ("start_date", some (Value.vNum (0 - 30 * 24 * 60 * 60 * 1000))),
             ("end_date", some (Value.vNum 0))] }] :=
  (c6_user_journey_default_range cfgEx 0 [] respondOk rfl rfl).1

/-- Counterexample to C7 as stated: `search_sessions` called with the
explicitly present falsy value `limit: 0` does not carry 0 into the
OutboundRequest — the `||` default replaces it with 50. -/
theorem c7_counterexample :
    ((handle AuthMode.full cfgEx 0 "search_sessions" [("limit", Value.vNum 0)]
        respondOk).1.map (fun r => lookupField r.body "limit"))
      = [some (some (Value.vNum 50))] ∧
    Value.vNum 50 ≠ Value.vNum 0 :=
  ⟨rfl, fun h => by injection h with h'; exact absurd h' (by decide)⟩

/-- Claim C7 (amended): the defaults replace an optional field exactly
when it is absent or present with a JS-falsy value (such as 0); a
present truthy value is carried into the OutboundRequest unchanged.
Stated for the fields the claim singles out: search_sessions' limit and
offset, and get_errors_issues' minOccurrences. -/
theorem c7_truthy_passed_falsy_defaulted (cfg : Config) (now : Int)
    (args : Args) (respond : Responder) (v w : Value)
    (hv : truthy v = true) (hw : truthy w = false) :
    (getArg args "limit" = some v →
      ((handle AuthMode.full cfg now "search_sessions" args respond).1.map
        (fun r => lookupField r.body "limit")) = [some (some v)]) ∧
    (getArg args "limit" = some w →
      ((handle AuthMode.full cfg now "search_sessions" args respond).1.map
        (fun r => lookupField r.body "limit")) = [some (some (Value.vNum 50))]) ∧
    (getArg args "offset" = some v →
      ((handle AuthMode.full cfg now "search_sessions" args respond).1.map
        (fun r => lookupField r.body "offset")) = [some (some v)]) ∧
    (getArg args "offset" = some w →
      ((handle AuthMode.full cfg now "search_sessions" args respond).1.map
        (fun r => lookupField r.body "offset")) = [some (some (Value.vNum 0))]) ∧
    (getArg args "minOccurrences" = some v →
      ((handle AuthMode.full cfg now "get_errors_issues" args respond).1.map
        (fun r => lookupField r.body "minOccurrences")) = [some (some v)]) ∧
    (getArg args "minOccurrences" = some w →
      ((handle AuthMode.full cfg now "get_errors_issues" args respond).1.map
        (fun r => lookupField r.body "minOccurrences")) = [some (some (Value.vNum 1))]) := by
  refine ⟨?_, ?_, ?_, ?_, ?_, ?_⟩ <;> intro h <;>
    simp [handle, handleFull, Full.searchSessions, Full.getErrorsIssues,
      callAndWrap, catchWrap, lookupField, jsOr, h, hv, hw]

/-- Witness for C7 (amended): a present truthy `limit: 7` passes
through unchanged. -/
theorem c7_truthy_passed_falsy_defaulted_witness :
    ((handle AuthMode.full cfgEx 0 "search_sessions" [("limit", Value.vNum 7)]
        respondOk).1.map (fun r => lookupField r.body "limit"))
      = [some (some (Value.vNum 7))] :=
  (c7_truthy_passed_falsy_defaulted cfgEx 0 [("limit", Value.vNum 7)] respondOk
    (Value.vNum 7) (Value.vNum 0) rfl rfl).1 rfl

/-- Claim C8: every tool invocation issues at most one outbound HTTP
request — no fan-out, no batching, no retry after a failure. -/
theorem c8_at_most_one_request (mode : AuthMode) (cfg : Config) (now : Int)
    (name : String) (args : Args) (respond : Responder) :
    (handle mode cfg now name args respond).1.length ≤ 1 := by
  cases mode with
  | full =>
      simp only [handle]
      unfold handleFull
      split <;> first | exact Nat.le.refl | exact Nat.zero_le 1
  | apiKey =>
      simp only [handle]
      unfold handleApiKey
      split <;> first
        | exact Nat.le.refl
        | exact Nat.zero_le 1
        | (unfold ApiKey.searchSessions
           split <;> first | exact Nat.zero_le 1 | exact Nat.le.refl)

set_option maxHeartbeats 1600000 in
/-- Claim C9: the Dispatcher holds no invocation-to-invocation state —
in this embedding `handle` is a pure function of the static
configuration and the single call's inputs — so invoking the same tool
with the same argument bag twice yields outbound requests of identical
shape (method, path and payload), once the fields whose defaults derive
from the call's wall-clock time are excluded: the request lists agree
for any two call times. -/
theorem c9_stateless_identical_shape (mode : AuthMode) (cfg : Config)
    (name : String) (args : Args) (respond : Responder) (now1 now2 : Int) :
    ((handle mode cfg now1 name args respond).1.map stripTimeFields)
      = ((handle mode cfg now2 name args respond).1.map stripTimeFields) := by
  cases mode with
  | full =>
      simp only [handle]
      unfold handleFull
      split <;>
        simp [Full.searchSessions, Full.getSessionDetails, Full.getSessionEvents,
          Full.aggregateSessions, Full.getUserJourney, Full.getErrorsIssues,
          Full.getFunnelAnalysis, Full.getPerformanceMetrics, Full.executeCustomQuery,
          catchWrap, callAndWrap, stripTimeFields, timeKeys]
  | apiKey =>
      simp only [handle]
      unfold handleApiKey
      split <;> first
        | (unfold ApiKey.searchSessions
           split_ifs <;>
             simp [catchWrap, callAndWrap, stripTimeFields, timeKeys])
        | simp [ApiKey.listProjects, ApiKey.getUserSessions, ApiKey.getSessionDetails,
            ApiKey.getSessionEvents, ApiKey.aggregateSessions, ApiKey.getUserJourney,
            ApiKey.getErrorsIssues, ApiKey.getFunnelAnalysis, ApiKey.getPerformanceMetrics,
            ApiKey.executeCustomQuery, catchWrap, callAndWrap, stripTimeFields, timeKeys]

theorem handle_ok_single_text (mode : AuthMode) (cfg : Config) (now : Int)
    (name : String) (args : Args) (respond : Responder) (r : ToolResult)
    (h : (handle mode cfg now name args respond).2 = HandleOut.ok r) :
    ∃ s, r = mkTextResult s := by
  cases mode with
  | full =>
      simp only [handle] at h
      unfold handleFull at h
      split at h <;> first
        | exact catchWrap_ok_shape _ (fun r' h' => callAndWrap_ok_shape _ _ r' h') r h
        | exact HandleOut.noConfusion h
  | apiKey =>
      simp only [handle] at h
      unfold handleApiKey at h
      split at h <;> first
        | exact catchWrap_ok_shape _ (fun r' h' => callAndWrap_ok_shape _ _ r' h') r h
        | exact catchWrap_ok_shape _ (fun r' h' => ⟨_, (Except.ok.inj h').symm⟩) r h
        | exact HandleOut.noConfusion h
        | (refine catchWrap_ok_shape _ ?_ r h
           intro r' h'
           unfold ApiKey.searchSessions at h'
           split at h' <;> first
             | exact ⟨_, (Except.ok.inj h').symm⟩
             | exact callAndWrap_ok_shape _ _ r' h')

/-- Claim C10: every ToolResult the Dispatcher returns — on success, on
delegated remote failure, and on the unsupported-under-mode path — has
a content sequence of exactly one element, and that element has kind
text. -/
theorem c10_single_text_envelope (mode : AuthMode) (cfg : Config) (now : Int)
    (name : String) (args : Args) (respond : Responder) (r : ToolResult)
    (h : (handle mode cfg now name args respond).2 = HandleOut.ok r) :
    ∃ s, r.content = [{ type := "text", text := s }] := by
  obtain ⟨s, rfl⟩ := handle_ok_single_text mode cfg now name args respond r h
  exact ⟨s, rfl⟩

/-- Witness for C10: the error envelope of a rejected full-access
`search_sessions` call is a single text element. -/
theorem c10_single_text_envelope_witness :
    ∃ s, (mkTextResult ("Error: " ++ "boom")).content
      = [{ type := "text", text := s }] :=
  c10_single_text_envelope AuthMode.full cfgEx 0 "search_sessions" []
    (fun _ => Outcome.failure (some "boom")) (mkTextResult ("Error: " ++ "boom")) rfl

end OpenReplayMCP
